import Mathlib

/-!
Verification development for the Smart Parking detection server
(`server.py`, `detect_and_ocr.py`).

The repository's core pipeline is: decode bytes → YOLO detection →
filter boxes by class → crop → preprocess (grayscale, Otsu threshold,
3×3 median blur) → Tesseract OCR → sanitize text → assemble records →
insert database rows.

External collaborators (the YOLO model, Tesseract, Supabase storage and
table inserts, the image codec `cv2.imdecode`, and the OpenCV drawing
primitives `cv2.rectangle`/`cv2.putText`) are modelled as explicit
oracle parameters; a Python call that may raise is modelled by the
`PyResult` type.  The OpenCV preprocessing primitives used by
`run_ocr_on_crop` (`cvtColor`, `threshold` with `THRESH_OTSU`,
`medianBlur`) are modelled concretely, since the spec requires the exact
three-step chain.  File writes (`cv2.imwrite`) and `print` logging are
side effects outside the model.
-/

namespace SmartParking

/-- Outcome of a Python call that either returns a value or raises an
exception carrying a message. -/
inductive PyResult (α : Type) where
  | ok (a : α)
  | exn (msg : String)
deriving DecidableEq

/-- A width×height pixel grid; `pix x y` is the pixel in column `x`,
row `y`.  Models a numpy array as used by the pipeline. -/
structure Image (α : Type) where
  width : Nat
  height : Nat
  pix : Nat → Nat → α

/-- A 3-channel pixel in OpenCV's (blue, green, red) channel order,
each component an 8-bit intensity. -/
abbrev BGR := Nat × Nat × Nat

/-- A detected bounding box as consumed by the per-box loops:
`x1, y1, x2, y2 = map(int, box[:4])` (already truncated to integers),
the class name looked up in `model.names`, and the confidence score
(`float(confs[i])`, modelled as a rational). -/
structure BBox where
  x1 : Int
  y1 : Int
  x2 : Int
  y2 : Int
  cls : String
  conf : Rat
deriving DecidableEq

/-- Python's `str.lower()` restricted to ASCII case mapping, which is
exact for the class-name strings compared against `"plate"`. -/
def lowerString (s : String) : String := String.mk (s.toList.map Char.toLower)

/-- Resolution of one numpy slice endpoint on an axis of size `n`:
a negative index has `n` added, then the result is clamped to `[0, n]`.
This is the semantics of `img[y1:y2, x1:x2]` endpoints. -/
def npClip (n : Nat) (i : Int) : Nat :=
  let j : Int := if i < 0 then i + n else i
  (min (max j 0) n).toNat

/-- `crop = img[y1:y2, x1:x2]`: numpy basic slicing of the pixel grid.
The resulting extent is `max 0 (stop - start)` on each axis (`Nat`
subtraction truncates at zero, matching numpy). -/
def cropImage (img : Image BGR) (y1 y2 x1 x2 : Int) : Image BGR :=
  let r1 := npClip img.height y1
  let r2 := npClip img.height y2
  let c1 := npClip img.width x1
  let c2 := npClip img.width x2
  ⟨c2 - c1, r2 - r1, fun x y => img.pix (c1 + x) (r1 + y)⟩

/-- `cv2.imwrite` on an in-memory image: OpenCV 4.x begins with
`CV_Assert(!_img.empty())`, so writing an empty image (one with a zero
dimension) raises; the file write itself is a side effect outside the
model.  Other I/O failures (bad path, full disk) are not modelled. -/
def imwrite (img : Image BGR) : PyResult Unit :=
  if img.width == 0 || img.height == 0 then
    PyResult.exn "cv2.imwrite: empty image"
  else PyResult.ok ()

/-- Whether the numpy slice for a box is non-empty, i.e. whether
`cv2.imwrite` accepts the crop. -/
def cropOk (img : Image BGR) (b : BBox) : Bool :=
  !((cropImage img b.y1 b.y2 b.x1 b.x2).width == 0 ||
    (cropImage img b.y1 b.y2 b.x1 b.x2).height == 0)

/-- `cv2.cvtColor(crop, cv2.COLOR_BGR2GRAY)`: OpenCV's fixed-point
BGR→gray conversion, `Y = (B*1868 + G*9617 + R*4899 + 8192) >> 14`
(the coefficients are `0.114`, `0.587`, `0.299` scaled by `2^14`;
the final descale `>> 14` is written as division by `16384`). -/
def cvtGray (img : Image BGR) : Image Nat :=
  ⟨img.width, img.height, fun x y =>
    ((img.pix x y).1 * 1868 + (img.pix x y).2.1 * 9617 + (img.pix x y).2.2 * 4899 + 8192) /
      16384⟩

/-- All pixels of a grayscale image, row by row (the population the Otsu
histogram is computed over). -/
def pixList (img : Image Nat) : List Nat :=
  (List.range img.height).flatMap fun y => (List.range img.width).map fun x => img.pix x y

/-- Between-class statistics of splitting the pixel population at
threshold `t` (class one is the values `≤ t`): `none` when a class is
empty, otherwise the pair of the squared weighted mean difference
`(s1*n2 - s2*n1)^2` and the weight product `n1*n2`.  Comparing
`a/b` across thresholds by cross-multiplication reproduces OpenCV's
maximisation of the between-class variance `q1*q2*(mu1-mu2)^2` in exact
integer arithmetic. -/
def otsuScore (pixels : List Nat) (t : Nat) : Option (Int × Int) :=
  let low := pixels.filter fun v => v ≤ t
  let hi := pixels.filter fun v => ¬ v ≤ t
  if low.length = 0 ∨ hi.length = 0 then none
  else
    let d : Int := (low.sum : Int) * hi.length - (hi.sum : Int) * low.length
    some (d * d, (low.length : Int) * hi.length)

/-- The automatic threshold selected by `cv2.THRESH_OTSU`
(OpenCV's `getThreshVal_Otsu_8u`): the candidate `t ∈ [0, 255]`
maximising the between-class variance, the first maximiser kept on
ties, and `0` when every candidate leaves a class empty (a uniform
image).  OpenCV compares variances in `double`; the model compares the
same quantities in exact integer arithmetic. -/
def otsuThreshold (img : Image Nat) : Nat :=
  let pixels := pixList img
  let best := (List.range 256).foldl
    (fun best t =>
      match otsuScore pixels t with
      | none => best
      | some (a, b) =>
        match best with
        | none => some (t, a, b)
        | some (t0, a0, b0) => if a * b0 > a0 * b then some (t, a, b) else some (t0, a0, b0))
    none
  match best with
  | none => 0
  | some (t, _, _) => t

/-- `cv2.threshold(gray, 0, 255, cv2.THRESH_BINARY | cv2.THRESH_OTSU)[1]`:
every pixel strictly above the threshold becomes 255, every other pixel
becomes 0. -/
def thresholdBinary (img : Image Nat) (t : Nat) : Image Nat :=
  ⟨img.width, img.height, fun x y => if img.pix x y > t then 255 else 0⟩

/-- Clamping of a neighbourhood coordinate to `[0, n-1]`: OpenCV's
`BORDER_REPLICATE` border handling used by `medianBlur`. -/
def clampCoord (n : Nat) (i : Int) : Nat :=
  (min (max i 0) ((n : Int) - 1)).toNat

/-- The 3×3 neighbourhood of `(x, y)` with replicated borders, as a
nine-element list. -/
def neighborhood3 (img : Image Nat) (x y : Nat) : List Nat :=
  ([-1, 0, 1] : List Int).flatMap fun dy =>
    ([-1, 0, 1] : List Int).map fun dx =>
      img.pix (clampCoord img.width (x + dx)) (clampCoord img.height (y + dy))

/-- The median of a nine-element list: the fifth smallest value. -/
def median9 (l : List Nat) : Nat := (List.insertionSort (fun a b => a ≤ b) l).getD 4 0

/-- `cv2.medianBlur(gray, 3)`: each pixel replaced by the median of its
3×3 neighbourhood, borders replicated. -/
def medianBlur3 (img : Image Nat) : Image Nat :=
  ⟨img.width, img.height, fun x y => median9 (neighborhood3 img x y)⟩

/-- The OCR preprocessing chain of `run_ocr_on_crop`
(`detect_and_ocr.py` lines 27-29, `server.py` lines 131-133):
grayscale conversion, then Otsu binarisation, then a 3×3 median
filter, in that order. -/
def preprocess (crop : Image BGR) : Image Nat :=
  let gray := cvtGray crop
  medianBlur3 (thresholdBinary gray (otsuThreshold gray))

/-- Python's `str.isalnum` per character, modelled exactly on the Basic
Latin and Latin-1 Supplement blocks (code points below `U+0100`, the
character domain exercised in this development): the ASCII letters and
digits, the Latin-1 letters `ª µ º` and `U+00C0`-`U+00FF` minus `×` and
`÷`, and the Latin-1 numerics `² ³ ¹ ¼ ½ ¾`. -/
def latin1Alnum (n : Nat) : Bool :=
  n == 0xAA || n == 0xB5 || n == 0xBA ||
  n == 0xB2 || n == 0xB3 || n == 0xB9 ||
  (0xBC ≤ n && n ≤ 0xBE) ||
  (0xC0 ≤ n && n ≤ 0xFF && n != 0xD7 && n != 0xF7)

/-- `c.isalnum()` as used in the sanitizer comprehension. -/
def pyIsAlnum (c : Char) : Bool := c.isAlphanum || latin1Alnum c.toNat

/-- The result sanitizer (`detect_and_ocr.py` lines 39-40, `server.py`
lines 141-142): `plate_text = ''.join(c for c in text if c.isalnum())`
followed by `return plate_text if plate_text else None`. -/
def sanitize (text : String) : Option String :=
  let plate_text := String.mk (text.toList.filter pyIsAlnum)
  if plate_text = "" then none else some plate_text

/-- Modelled from the spec: "remove every character that is not an
ASCII letter or digit".  The ASCII letter-or-digit test, for comparison
with the code's `pyIsAlnum`. -/
def isAsciiAlnum (c : Char) : Bool :=
  (65 ≤ c.toNat && c.toNat ≤ 90) || (97 ≤ c.toNat && c.toNat ≤ 122) ||
  (48 ≤ c.toNat && c.toNat ≤ 57)

/-- Modelled from the spec: the sanitizer as the spec words it, keeping
exactly the ASCII letters and digits. -/
def sanitizeSpec (text : String) : Option String :=
  let kept := String.mk (text.toList.filter isAsciiAlnum)
  if kept = "" then none else some kept

/-- `run_ocr_on_crop` (`detect_and_ocr.py` lines 21-43, `server.py`
lines 128-146): preprocess the crop, invoke the Tesseract engine
(an oracle `ocr`, whitelist configuration included in the oracle), and
sanitize the raw text; any engine exception is caught and yields
`none`.  The debug `imwrite` is a side effect outside the model. -/
def run_ocr_on_crop (ocr : Image Nat → PyResult String) (crop : Image BGR) : Option String :=
  match ocr (preprocess crop) with
  | PyResult.exn _ => none
  | PyResult.ok text => sanitize text

/-- `os.path.splitext(s)[0]`: the string up to (excluding) the last
dot, the whole string when there is no dot. -/
def splitextStem (s : String) : String :=
  let cs := s.toList
  if cs.contains '.' then
    String.mk (cs.take (cs.length - 1 - cs.reverse.indexOf '.'))
  else s

/-- One entry of the `detections` list built by
`detect_and_ocr.detect_plates`: the crop file name, the confidence, the
OCR text with the `"unreadable"` placeholder, and the crop path. -/
structure DetRecord where
  file : String
  confidence : Rat
  plate_text : String
  crop_path : String
deriving DecidableEq

/-- The record appended for one surviving box at loop index `i` in
`detect_plates`: `crop_name = f"{prefix}_plate_{i}.jpg"`,
`text = run_ocr_on_crop(crop)`, `plate_text = text or "unreadable"`. -/
def detRec (ocr : Image Nat → PyResult String) (img : Image BGR) (saveDir pfx : String)
    (p : Nat × BBox) : DetRecord :=
  let crop := cropImage img p.2.y1 p.2.y2 p.2.x1 p.2.x2
  let crop_name := pfx ++ "_plate_" ++ toString p.1 ++ ".jpg"
  { file := crop_name
    confidence := p.2.conf
    plate_text := (run_ocr_on_crop ocr crop).getD "unreadable"
    crop_path := saveDir ++ "/" ++ crop_name }

/-- The `for i, box in enumerate(boxes)` loop of `detect_plates`
(`detect_and_ocr.py` lines 64-83): skip a box unless
`class_name.lower() == "plate"`, otherwise crop, write the crop with
`cv2.imwrite` (which raises on an empty crop, aborting the loop), OCR,
and append a record.  There is no coordinate clipping and no
degenerate-box check in this loop. -/
def detectLoop (ocr : Image Nat → PyResult String) (img : Image BGR) (saveDir pfx : String) :
    List (Nat × BBox) → PyResult (List DetRecord)
  | [] => PyResult.ok []
  | p :: rest =>
    if lowerString p.2.cls == "plate" then
      match imwrite (cropImage img p.2.y1 p.2.y2 p.2.x1 p.2.x2) with
      | PyResult.exn e => PyResult.exn e
      | PyResult.ok _ =>
        match detectLoop ocr img saveDir pfx rest with
        | PyResult.exn e => PyResult.exn e
        | PyResult.ok recs => PyResult.ok (detRec ocr img saveDir pfx p :: recs)
    else detectLoop ocr img saveDir pfx rest

/-- `detect_and_ocr.detect_plates`: the whole body runs under a
`try`/`except` that returns `[]` when the model invocation — or
anything else in the body, such as `cv2.imwrite` on an empty crop —
raises; on success the enumerated boxes extracted from the prediction
are processed by the loop.  The `results` unwrapping (`r.boxes.xyxy`
and friends) is library plumbing summarised by the oracle already
returning the box list. -/
def detect_plates (predictResult : PyResult (List BBox)) (ocr : Image Nat → PyResult String)
    (img : Image BGR) (saveDir pfx : String) : List DetRecord :=
  match predictResult with
  | PyResult.exn _ => []
  | PyResult.ok boxes =>
    match detectLoop ocr img saveDir pfx boxes.enum with
    | PyResult.exn _ => []
    | PyResult.ok recs => recs

/-- One entry of the `detected_plates` list built by the routes in
`server.py`: crop file name, display text, the Supabase URL for the
uploaded crop (absent when the upload failed), and the confidence. -/
structure PlateRec where
  file : String
  text : String
  plate_url : Option String
  confidence : Rat
deriving DecidableEq

/-- A row passed to `insert_plate_record` (`server.py` lines 189-205).
The `timestamp` column (the external clock) is outside the model. -/
structure DbRow where
  camera_id : String
  plate_text : String
  confidence : Rat
  plate_url : Option String
  scene_url : Option String
  status : String
deriving DecidableEq

/-- The external collaborators and request-fixed strings a `server.py`
route runs with: the Tesseract oracle, Supabase storage upload by file
name (`none` models a caught upload failure), the OpenCV
rectangle-plus-label drawing for one box, the camera identifier, and
the timestamp-derived file name. -/
structure ServerCtx where
  ocr : Image Nat → PyResult String
  storage : String → Option String
  draw : Image BGR → BBox → Image BGR
  camera_id : String
  filename : String

/-- Whether a box reaches the crop-and-OCR body of the per-box loop in
`server.py` (lines 506-513 of `upload_image`, lines 290-298 of
`telegram_webhook`): it must not be skipped by
`if x2 <= x1 or y2 <= y1: continue` nor by
`if class_name.lower() != "plate": continue`. -/
def serverBoxSurvives (b : BBox) : Bool :=
  !(b.x2 ≤ b.x1 || b.y2 ≤ b.y1) && (lowerString b.cls == "plate")

/-- The record appended for one surviving box at loop index `i` in a
`server.py` route: `crop_name = f"{stem}_plate_{i}.jpg"`, the OCR text
with the `"unreadable"` placeholder, and the storage URL of the
uploaded crop. -/
def serverRec (ctx : ServerCtx) (img : Image BGR) (p : Nat × BBox) : PlateRec :=
  let crop := cropImage img p.2.y1 p.2.y2 p.2.x1 p.2.x2
  let crop_name := splitextStem ctx.filename ++ "_plate_" ++ toString p.1 ++ ".jpg"
  { file := crop_name
    text := (run_ocr_on_crop ctx.ocr crop).getD "unreadable"
    plate_url := ctx.storage crop_name
    confidence := p.2.conf }

/-- The `for i, box in enumerate(boxes)` loop shared by the `server.py`
routes (`upload_image` lines 506-539, `telegram_webhook` lines
290-324): skip degenerate boxes, skip boxes not labelled `"plate"`,
otherwise draw the rectangle and label on the annotated image, crop,
write the crop with `cv2.imwrite` (which raises on an empty crop — the
exception escapes the loop to the route's outer handler), OCR, upload
the crop, and append a record.  On success, returns the records and
the final annotated image. -/
def serverLoop (ctx : ServerCtx) (img : Image BGR) :
    List (Nat × BBox) → Image BGR → PyResult (List PlateRec × Image BGR)
  | [], ann => PyResult.ok ([], ann)
  | p :: rest, ann =>
    if p.2.x2 ≤ p.2.x1 || p.2.y2 ≤ p.2.y1 then serverLoop ctx img rest ann
    else if lowerString p.2.cls == "plate" then
      match imwrite (cropImage img p.2.y1 p.2.y2 p.2.x1 p.2.x2) with
      | PyResult.exn e => PyResult.exn e
      | PyResult.ok _ =>
        match serverLoop ctx img rest (ctx.draw ann p.2) with
        | PyResult.exn e => PyResult.exn e
        | PyResult.ok r => PyResult.ok (serverRec ctx img p :: r.1, r.2)
    else serverLoop ctx img rest ann

/-- The record list actually delivered by a run of the per-box loop:
the produced records on success, none at all when the loop raised. -/
def loopRecords : PyResult (List PlateRec × Image BGR) → List PlateRec
  | PyResult.ok r => r.1
  | PyResult.exn _ => []

/-- The response body of the `/upload` route, tagging which return
statement produced it. -/
inductive UploadBody where
  | emptyData
  | decodeFailed
  | noPlate (scene_url : Option String)
  | okPlates (plates : List PlateRec) (scene_url : Option String)
  | serverError (msg : String)
deriving DecidableEq

/-- What a run of the `/upload` route produces: the HTTP status, the
response body, the rows handed to `insert_plate_record`, and the
annotated image written to disk (`none` when the pipeline never built
one). -/
structure UploadResult where
  status : Nat
  body : UploadBody
  inserted : List DbRow
  annotated : Option (Image BGR)

/-- The detection records carried by a response body (`okPlates`
carries them; every other body carries none). -/
def UploadResult.records (r : UploadResult) : List PlateRec :=
  match r.body with
  | UploadBody.okPlates plates _ => plates
  | _ => []

/-- The scene URL computed by a `server.py` route: the annotated image
is written as `f"{stem}_annotated.jpg"` and uploaded to storage. -/
def sceneUrl (ctx : ServerCtx) : Option String :=
  ctx.storage (splitextStem ctx.filename ++ "_annotated.jpg")

/-- The `/upload` POST handler `upload_image` (`server.py` lines
411-586) from the point where the image bytes are in hand: empty bytes
→ HTTP 400; `cv2.imdecode` returning no image (the codec oracle
`decode`) → HTTP 400; a raising `model.predict` propagates to the outer
`except` → HTTP 500; otherwise the per-box loop runs on
`annotated = img.copy()`, the annotated scene is uploaded, and either
the `"no_plate_detected"` row is inserted (HTTP 200) or one row per
detected plate is inserted (HTTP 200).  An exception raised inside the
per-box loop (`cv2.imwrite` on an empty crop) also reaches the outer
`except` and answers HTTP 500. -/
def upload_image (ctx : ServerCtx) (decode : List Nat → Option (Image BGR))
    (predict : Image BGR → PyResult (List BBox)) (img_bytes : List Nat) : UploadResult :=
  if img_bytes.isEmpty then ⟨400, UploadBody.emptyData, [], none⟩
  else
    match decode img_bytes with
    | none => ⟨400, UploadBody.decodeFailed, [], none⟩
    | some img =>
      match predict img with
      | PyResult.exn e => ⟨500, UploadBody.serverError e, [], none⟩
      | PyResult.ok boxes =>
        match serverLoop ctx img boxes.enum img with
        | PyResult.exn e => ⟨500, UploadBody.serverError e, [], none⟩
        | PyResult.ok r =>
          let scene_url := sceneUrl ctx
          if r.1.isEmpty then
            ⟨200, UploadBody.noPlate scene_url,
              [⟨ctx.camera_id, "no_plate_detected", 0, none, scene_url, "new"⟩], some r.2⟩
          else
            ⟨200, UploadBody.okPlates r.1 scene_url,
              r.1.map fun dp =>
                ⟨ctx.camera_id, dp.text, dp.confidence, dp.plate_url, scene_url, "new"⟩,
              some r.2⟩

/-- The response body of the Telegram webhook route. -/
inductive WebhookBody where
  | noPhoto
  | noFileId
  | invalidImage
  | okProcessed (plates_detected : Nat) (scene_url : Option String)
  | errorCaught (msg : String)
deriving DecidableEq

/-- What a run of the webhook route produces. -/
structure WebhookResult where
  status : Nat
  body : WebhookBody
  inserted : List DbRow

/-- The `/telegram-webhook` handler `telegram_webhook` (`server.py`
lines 222-361).  `hasPhoto`/`hasFileId` summarise the message-shape
checks; `fetch` is `download_image_from_telegram` (its exception is
caught by the outer handler, which deliberately answers HTTP 200);
a failed `cv2.imdecode` answers `{"status": "error", "message":
"Invalid image"}` with HTTP 200; a raising `model.predict`, or an
exception inside the per-box loop (`cv2.imwrite` on an empty crop), is
caught by the outer handler, again with HTTP 200.  Otherwise the same
per-box loop as `/upload` runs and rows are inserted as there. -/
def telegram_webhook (ctx : ServerCtx) (decode : List Nat → Option (Image BGR))
    (predict : Image BGR → PyResult (List BBox)) (fetch : PyResult (List Nat))
    (hasPhoto hasFileId : Bool) : WebhookResult :=
  if !hasPhoto then ⟨200, WebhookBody.noPhoto, []⟩
  else if !hasFileId then ⟨200, WebhookBody.noFileId, []⟩
  else
    match fetch with
    | PyResult.exn e => ⟨200, WebhookBody.errorCaught e, []⟩
    | PyResult.ok img_bytes =>
      match decode img_bytes with
      | none => ⟨200, WebhookBody.invalidImage, []⟩
      | some img =>
        match predict img with
        | PyResult.exn e => ⟨200, WebhookBody.errorCaught e, []⟩
        | PyResult.ok boxes =>
          match serverLoop ctx img boxes.enum img with
          | PyResult.exn e => ⟨200, WebhookBody.errorCaught e, []⟩
          | PyResult.ok r =>
            let scene_url := sceneUrl ctx
            if r.1.isEmpty then
              ⟨200, WebhookBody.okProcessed 0 scene_url,
                [⟨ctx.camera_id, "no_plate_detected", 0, none, scene_url, "new"⟩]⟩
            else
              ⟨200, WebhookBody.okProcessed r.1.length scene_url,
                r.1.map fun dp =>
                  ⟨ctx.camera_id, dp.text, dp.confidence, dp.plate_url, scene_url, "new"⟩⟩

/-! ## Helper lemmas -/

theorem mk_eq_empty_iff (l : List Char) : String.mk l = "" ↔ l = [] := by
  constructor
  · intro h
    have h2 := congrArg String.data h
    simpa using h2
  · intro h
    rw [h]

theorem isAlphanum_eq_isAsciiAlnum (c : Char) : c.isAlphanum = isAsciiAlnum c := by
  simp only [Char.isAlphanum, Char.isAlpha, Char.isDigit, Char.isUpper, Char.isLower,
    ge_iff_le, UInt32.le_def, BitVec.le_def, isAsciiAlnum]
  rfl

theorem latin1Alnum_eq_false_of_ascii {n : Nat} (h : n < 128) : latin1Alnum n = false := by
  simp only [latin1Alnum, Bool.or_eq_false_iff, Bool.and_eq_false_iff, beq_eq_false_iff_ne,
    ne_eq, decide_eq_false_iff_not, not_le, bne_eq_false_iff_eq]
  omega

theorem pyIsAlnum_eq_ascii {c : Char} (h : c.toNat < 128) : pyIsAlnum c = isAsciiAlnum c := by
  simp [pyIsAlnum, latin1Alnum_eq_false_of_ascii h, isAlphanum_eq_isAsciiAlnum]

theorem sanitize_eq_none_iff (text : String) :
    sanitize text = none ↔ ∀ c ∈ text.toList, pyIsAlnum c = false := by
  have hchain : (∀ c ∈ text.toList, pyIsAlnum c = false) ↔
      text.toList.filter pyIsAlnum = [] := by
    rw [List.filter_eq_nil_iff]
    constructor
    · intro h c hc hp
      rw [h c hc] at hp
      cases hp
    · intro h c hc
      have h2 := h c hc
      revert h2
      cases pyIsAlnum c <;> simp
  rw [hchain]
  simp only [sanitize]
  by_cases h : String.mk (text.toList.filter pyIsAlnum) = ""
  · rw [if_pos h]
    exact iff_of_true rfl ((mk_eq_empty_iff _).mp h)
  · rw [if_neg h]
    exact iff_of_false (by simp) fun hf => h ((mk_eq_empty_iff _).mpr hf)

theorem sanitize_eq_some {text out : String} (h : sanitize text = some out) :
    out.toList = text.toList.filter pyIsAlnum ∧ out ≠ "" := by
  simp only [sanitize] at h
  by_cases he : String.mk (text.toList.filter pyIsAlnum) = ""
  · rw [if_pos he] at h
    exact absurd h (by simp)
  · rw [if_neg he] at h
    have h3 : String.mk (text.toList.filter pyIsAlnum) = out := Option.some.inj h
    constructor
    · rw [← h3]
      rfl
    · rw [← h3]
      exact he

theorem imwrite_ok_of_cropOk {img : Image BGR} {b : BBox} (h : cropOk img b = true) :
    imwrite (cropImage img b.y1 b.y2 b.x1 b.x2) = PyResult.ok () := by
  unfold cropOk at h
  rw [Bool.not_eq_true'] at h
  unfold imwrite
  rw [h]
  rfl

theorem serverLoop_ok (ctx : ServerCtx) (img : Image BGR) (l : List (Nat × BBox))
    (ann : Image BGR)
    (hall : ∀ p ∈ l.filter (fun p => serverBoxSurvives p.2), cropOk img p.2 = true) :
    serverLoop ctx img l ann =
      PyResult.ok ((l.filter fun p => serverBoxSurvives p.2).map (serverRec ctx img),
        (l.filter fun p => serverBoxSurvives p.2).foldl (fun a p => ctx.draw a p.2) ann) := by
  induction l generalizing ann with
  | nil => rfl
  | cons p rest ih =>
    by_cases h1 : (p.2.x2 ≤ p.2.x1 || p.2.y2 ≤ p.2.y1) = true
    · have hs : serverBoxSurvives p.2 = false := by
        unfold serverBoxSurvives
        rw [h1]
        rfl
      have hfil : (p :: rest).filter (fun p => serverBoxSurvives p.2) =
          rest.filter (fun p => serverBoxSurvives p.2) := by
        simp [List.filter_cons, hs]
      rw [hfil] at hall
      simp only [serverLoop, if_pos h1]
      rw [hfil]
      exact ih ann hall
    · rw [Bool.not_eq_true] at h1
      by_cases h2 : (lowerString p.2.cls == "plate") = true
      · have hs : serverBoxSurvives p.2 = true := by
          unfold serverBoxSurvives
          rw [h1, h2]
          rfl
        have hfil : (p :: rest).filter (fun p => serverBoxSurvives p.2) =
            p :: rest.filter (fun p => serverBoxSurvives p.2) := by
          simp [List.filter_cons, hs]
        have hcOk : cropOk img p.2 = true := by
          apply hall
          rw [hfil]
          exact List.mem_cons_self p _
        have hrest : ∀ q ∈ rest.filter (fun p => serverBoxSurvives p.2),
            cropOk img q.2 = true := by
          intro q hq
          apply hall
          rw [hfil]
          exact List.mem_cons_of_mem p hq
        simp only [serverLoop, h1, Bool.false_eq_true, if_false, if_pos h2,
          imwrite_ok_of_cropOk hcOk]
        rw [ih (ctx.draw ann p.2) hrest, hfil]
        simp [List.filter_cons, hs, List.foldl_cons]
      · rw [Bool.not_eq_true] at h2
        have hs : serverBoxSurvives p.2 = false := by
          unfold serverBoxSurvives
          rw [h1, h2]
          rfl
        have hfil : (p :: rest).filter (fun p => serverBoxSurvives p.2) =
            rest.filter (fun p => serverBoxSurvives p.2) := by
          simp [List.filter_cons, hs]
        rw [hfil] at hall
        simp only [serverLoop, h1, h2, Bool.false_eq_true, if_false]
        rw [hfil]
        exact ih ann hall

theorem mem_loopRecords (ctx : ServerCtx) (img : Image BGR) (l : List (Nat × BBox))
    (ann : Image BGR) (rec : PlateRec)
    (hrec : rec ∈ loopRecords (serverLoop ctx img l ann)) :
    ∃ p ∈ l.filter (fun p => serverBoxSurvives p.2), rec = serverRec ctx img p := by
  induction l generalizing ann with
  | nil => exact absurd hrec (List.not_mem_nil rec)
  | cons p rest ih =>
    by_cases h1 : (p.2.x2 ≤ p.2.x1 || p.2.y2 ≤ p.2.y1) = true
    · have hs : serverBoxSurvives p.2 = false := by
        unfold serverBoxSurvives
        rw [h1]
        rfl
      simp only [serverLoop, if_pos h1] at hrec
      obtain ⟨q, hq, he⟩ := ih ann hrec
      refine ⟨q, ?_, he⟩
      simp [List.filter_cons, hs, hq]
    · rw [Bool.not_eq_true] at h1
      by_cases h2 : (lowerString p.2.cls == "plate") = true
      · have hs : serverBoxSurvives p.2 = true := by
          unfold serverBoxSurvives
          rw [h1, h2]
          rfl
        simp only [serverLoop, h1, Bool.false_eq_true, if_false, if_pos h2] at hrec
        cases himw : imwrite (cropImage img p.2.y1 p.2.y2 p.2.x1 p.2.x2) with
        | exn e =>
          rw [himw] at hrec
          exact absurd hrec (List.not_mem_nil rec)
        | ok u =>
          rw [himw] at hrec
          cases hloop : serverLoop ctx img rest (ctx.draw ann p.2) with
          | exn e =>
            rw [hloop] at hrec
            exact absurd hrec (List.not_mem_nil rec)
          | ok r =>
            rw [hloop] at hrec
            rcases List.mem_cons.mp hrec with he | he
            · refine ⟨p, ?_, he⟩
              simp [List.filter_cons, hs]
            · have hmem : rec ∈ loopRecords (serverLoop ctx img rest (ctx.draw ann p.2)) := by
                rw [hloop]
                exact he
              obtain ⟨q, hq, heq⟩ := ih (ctx.draw ann p.2) hmem
              refine ⟨q, ?_, heq⟩
              simp [List.filter_cons, hs, hq]
      · rw [Bool.not_eq_true] at h2
        have hs : serverBoxSurvives p.2 = false := by
          unfold serverBoxSurvives
          rw [h1, h2]
          rfl
        simp only [serverLoop, h1, h2, Bool.false_eq_true, if_false] at hrec
        obtain ⟨q, hq, he⟩ := ih ann hrec
        refine ⟨q, ?_, he⟩
        simp [List.filter_cons, hs, hq]

theorem detectLoop_ok (ocr : Image Nat → PyResult String) (img : Image BGR)
    (saveDir pfx : String) (l : List (Nat × BBox))
    (hall : ∀ p ∈ l.filter (fun p => lowerString p.2.cls == "plate"), cropOk img p.2 = true) :
    detectLoop ocr img saveDir pfx l =
      PyResult.ok ((l.filter fun p => lowerString p.2.cls == "plate").map
        (detRec ocr img saveDir pfx)) := by
  induction l with
  | nil => rfl
  | cons p rest ih =>
    by_cases h : (lowerString p.2.cls == "plate") = true
    · have hfil : (p :: rest).filter (fun p => lowerString p.2.cls == "plate") =
          p :: rest.filter (fun p => lowerString p.2.cls == "plate") := by
        simp [List.filter_cons, h]
      have hcOk : cropOk img p.2 = true := by
        apply hall
        rw [hfil]
        exact List.mem_cons_self p _
      have hrest : ∀ q ∈ rest.filter (fun p => lowerString p.2.cls == "plate"),
          cropOk img q.2 = true := by
        intro q hq
        apply hall
        rw [hfil]
        exact List.mem_cons_of_mem p hq
      simp only [detectLoop, if_pos h, imwrite_ok_of_cropOk hcOk]
      rw [ih hrest, hfil]
      simp [List.map_cons]
    · rw [Bool.not_eq_true] at h
      have hfil : (p :: rest).filter (fun p => lowerString p.2.cls == "plate") =
          rest.filter (fun p => lowerString p.2.cls == "plate") := by
        simp [List.filter_cons, h]
      rw [hfil] at hall
      simp only [detectLoop, h, Bool.false_eq_true, if_false]
      rw [hfil]
      exact ih hall

theorem thresholdBinary_pix (img : Image Nat) (t x y : Nat) :
    (thresholdBinary img t).pix x y = 0 ∨ (thresholdBinary img t).pix x y = 255 := by
  simp only [thresholdBinary]
  by_cases h : img.pix x y > t
  · right
    rw [if_pos h]
  · left
    rw [if_neg h]

theorem neighborhood3_length (img : Image Nat) (x y : Nat) :
    (neighborhood3 img x y).length = 9 := rfl

theorem mem_neighborhood3 {img : Image Nat} {x y : Nat} {v : Nat}
    (h : v ∈ neighborhood3 img x y) : ∃ a b, v = img.pix a b := by
  simp only [neighborhood3, List.flatMap_cons, List.map_cons, List.map_nil,
    List.flatMap_nil, List.append_nil, List.mem_append, List.mem_cons,
    List.not_mem_nil, or_false] at h
  rcases h with (h | h | h) | (h | h | h) | (h | h | h) <;> exact ⟨_, _, h⟩

theorem median9_mem {l : List Nat} (h : l.length = 9) : median9 l ∈ l := by
  have hperm := List.perm_insertionSort (fun a b => a ≤ b) l
  have h4 : 4 < (List.insertionSort (fun a b => a ≤ b) l).length := by
    rw [hperm.length_eq, h]
    omega
  have hm : (List.insertionSort (fun a b => a ≤ b) l).getD 4 0 ∈
      List.insertionSort (fun a b => a ≤ b) l := by
    rw [List.getD_eq_getElem _ 0 h4]
    exact List.getElem_mem h4
  exact hperm.mem_iff.mp hm

theorem medianBlur3_thresholded_pix (img : Image Nat) (t x y : Nat) :
    (medianBlur3 (thresholdBinary img t)).pix x y = 0 ∨
      (medianBlur3 (thresholdBinary img t)).pix x y = 255 := by
  have hlen : (neighborhood3 (thresholdBinary img t) x y).length = 9 :=
    neighborhood3_length (thresholdBinary img t) x y
  have hmem := median9_mem hlen
  obtain ⟨a, b, hab⟩ := @mem_neighborhood3 (thresholdBinary img t) x y _ hmem
  have hp : (medianBlur3 (thresholdBinary img t)).pix x y =
      median9 (neighborhood3 (thresholdBinary img t) x y) := by
    unfold medianBlur3
    rfl
  rw [hp, hab]
  exact thresholdBinary_pix img t a b

theorem preprocess_pix (crop : Image BGR) (x y : Nat) :
    (preprocess crop).pix x y = 0 ∨ (preprocess crop).pix x y = 255 := by
  have h : preprocess crop =
      medianBlur3 (thresholdBinary (cvtGray crop) (otsuThreshold (cvtGray crop))) := rfl
  rw [h]
  exact medianBlur3_thresholded_pix (cvtGray crop) (otsuThreshold (cvtGray crop)) x y

theorem run_ocr_some {ocr : Image Nat → PyResult String} {crop : Image BGR} {s : String}
    (h : run_ocr_on_crop ocr crop = some s) :
    (∃ raw : String, s.toList = raw.toList.filter pyIsAlnum) ∧ s ≠ "" := by
  unfold run_ocr_on_crop at h
  cases hoc : ocr (preprocess crop) with
  | exn m =>
    rw [hoc] at h
    cases h
  | ok text =>
    rw [hoc] at h
    obtain ⟨h1, h2⟩ := sanitize_eq_some h
    exact ⟨⟨text, h1⟩, h2⟩

theorem isEmpty_false_of_ne_nil {α : Type} {l : List α} (h : l ≠ []) : l.isEmpty = false := by
  cases l with
  | nil => exact absurd rfl h
  | cons a t => rfl

theorem upload_image_exn (ctx : ServerCtx) (decode : List Nat → Option (Image BGR))
    (predict : Image BGR → PyResult (List BBox)) (bytes : List Nat) (img : Image BGR)
    (e : String) (hb : bytes ≠ []) (hdec : decode bytes = some img)
    (hpred : predict img = PyResult.exn e) :
    upload_image ctx decode predict bytes = ⟨500, UploadBody.serverError e, [], none⟩ := by
  unfold upload_image
  rw [isEmpty_false_of_ne_nil hb]
  simp [hdec, hpred]

theorem upload_image_noPlate (ctx : ServerCtx) (decode : List Nat → Option (Image BGR))
    (predict : Image BGR → PyResult (List BBox)) (bytes : List Nat) (img : Image BGR)
    (boxes : List BBox) (hb : bytes ≠ []) (hdec : decode bytes = some img)
    (hpred : predict img = PyResult.ok boxes)
    (hzero : boxes.enum.filter (fun p => serverBoxSurvives p.2) = []) :
    upload_image ctx decode predict bytes =
      ⟨200, UploadBody.noPlate (sceneUrl ctx),
        [⟨ctx.camera_id, "no_plate_detected", 0, none, sceneUrl ctx, "new"⟩], some img⟩ := by
  have hall : ∀ p ∈ boxes.enum.filter (fun p => serverBoxSurvives p.2),
      cropOk img p.2 = true := by
    intro p hp
    rw [hzero] at hp
    exact absurd hp (List.not_mem_nil p)
  have hloop := serverLoop_ok ctx img boxes.enum img hall
  rw [hzero, List.map_nil, List.foldl_nil] at hloop
  unfold upload_image
  rw [isEmpty_false_of_ne_nil hb]
  simp [hdec, hpred, hloop]

theorem upload_image_okPlates (ctx : ServerCtx) (decode : List Nat → Option (Image BGR))
    (predict : Image BGR → PyResult (List BBox)) (bytes : List Nat) (img : Image BGR)
    (boxes : List BBox) (hb : bytes ≠ []) (hdec : decode bytes = some img)
    (hpred : predict img = PyResult.ok boxes)
    (hall : ∀ p ∈ boxes.enum.filter (fun p => serverBoxSurvives p.2), cropOk img p.2 = true)
    (hne : boxes.enum.filter (fun p => serverBoxSurvives p.2) ≠ []) :
    (upload_image ctx decode predict bytes).status = 200 ∧
    (upload_image ctx decode predict bytes).records =
      (boxes.enum.filter fun p => serverBoxSurvives p.2).map (serverRec ctx img) ∧
    (upload_image ctx decode predict bytes).inserted =
      ((boxes.enum.filter fun p => serverBoxSurvives p.2).map (serverRec ctx img)).map
        (fun dp => ⟨ctx.camera_id, dp.text, dp.confidence, dp.plate_url, sceneUrl ctx, "new"⟩) := by
  have hloop := serverLoop_ok ctx img boxes.enum img hall
  have hne2 : ((boxes.enum.filter fun p => serverBoxSurvives p.2).map
      (serverRec ctx img)).isEmpty = false := by
    apply isEmpty_false_of_ne_nil
    intro hmap
    exact hne (List.map_eq_nil_iff.mp hmap)
  unfold upload_image
  rw [isEmpty_false_of_ne_nil hb]
  simp [hdec, hpred, hloop, hne2, UploadResult.records]

/-! ## Concrete witness material -/

/-- A ten-by-ten black test image. -/
def img10 : Image BGR := ⟨10, 10, fun _ _ => (0, 0, 0)⟩

/-- A four-by-four gray test image. -/
def img4 : Image BGR := ⟨4, 4, fun _ _ => (7, 7, 7)⟩

/-- A server context whose oracles ignore their arguments: the OCR
engine always raises, the storage upload always fails, and drawing is
the identity. -/
def ctx0 : ServerCtx :=
  { ocr := fun _ => PyResult.exn "tesseract missing"
    storage := fun _ => none
    draw := fun a _ => a
    camera_id := "CAM1"
    filename := "20260101_000000.jpg" }

/-- A plate-labelled test box covering the top-left two-by-two square
of `img4`. -/
def bW1 : BBox := ⟨0, 0, 2, 2, "plate", 1⟩

/-- A second plate-labelled test box, three wide and one tall. -/
def bW2 : BBox := ⟨0, 0, 3, 1, "Plate", 1⟩

/-- A server context whose OCR engine raises exactly on the
preprocessed crop of `bW1` (recognised by its width of two) and reads
`"AB 12"` on every other crop. -/
def ctxW : ServerCtx :=
  { ocr := fun g => if g.width == 2 then PyResult.exn "boom" else PyResult.ok "AB 12"
    storage := fun _ => none
    draw := fun a _ => a
    camera_id := "CAM1"
    filename := "20260101_000000.jpg" }

/-! ## Claim theorems -/

/-- C1, counterexample: the claim asserts that surviving boxes are
clipped to image bounds and degenerate boxes are discarded before
cropping.  On a ten-by-ten image, a plate box reaching past the right
edge (`x2 = 20 > 10 = width`) survives the server loop and produces a
record — its corner is out of bounds and was never clipped (the numpy
slice clips implicitly, leaving the crop non-empty).  Degenerate boxes
are not "discarded" either: in `detect_plates` a zero-width plate box
(`x1 = x2 = 2`) gives an empty crop, so `cv2.imwrite` raises and the
whole function returns `[]`, and a box whose out-of-bounds coordinates
wrap to an empty slice (`x1 = -5` resolving to column 5, equal to
`x2 = 5`) aborts the `/upload` route with HTTP 500. -/
theorem box_filter_clip_counterexample :
    (upload_image ctx0 (fun _ => some img10)
      (fun _ => PyResult.ok [⟨5, 0, 20, 5, "plate", 1⟩]) [1]).records.length = 1 ∧
    (img10.width : Int) < (⟨5, 0, 20, 5, "plate", 1⟩ : BBox).x2 ∧
    detect_plates (PyResult.ok [⟨2, 3, 2, 3, "plate", 1⟩]) ctx0.ocr img10
      "output" "detected" = [] ∧
    (upload_image ctx0 (fun _ => some img10)
      (fun _ => PyResult.ok [⟨-5, 0, 5, 5, "plate", 1⟩]) [1]).status = 500 := by
  decide

/-- C1, amended: in the `server.py` routes every box surviving the
per-box filter satisfies `x2 > x1` and `y2 > y1`; but no clipping to
the image bounds is performed: a surviving plate box reaching past the
image edge still produces a crop record with an out-of-bounds corner,
and one whose slice comes out empty aborts the request via the
`cv2.imwrite` assertion instead of being discarded.  In
`detect_and_ocr.detect_plates` there is no per-box discard at all: a
degenerate plate box makes the whole function return `[]`. -/
theorem box_filter_survivors_nondegenerate (b : BBox) (h : serverBoxSurvives b = true) :
    b.x1 < b.x2 ∧ b.y1 < b.y2 := by
  unfold serverBoxSurvives at h
  simp only [Bool.and_eq_true, Bool.not_eq_true', Bool.or_eq_false_iff,
    decide_eq_false_iff_not, not_le] at h
  exact ⟨h.1.1, h.1.2⟩

/-- Witness for the amended C1 theorem at a concrete surviving box. -/
theorem box_filter_survivors_nondegenerate_witness :
    serverBoxSurvives ⟨0, 0, 5, 5, "plate", 1⟩ = true ∧
    ((⟨0, 0, 5, 5, "plate", 1⟩ : BBox).x1 < (⟨0, 0, 5, 5, "plate", 1⟩ : BBox).x2 ∧
      (⟨0, 0, 5, 5, "plate", 1⟩ : BBox).y1 < (⟨0, 0, 5, 5, "plate", 1⟩ : BBox).y2) :=
  ⟨by decide, box_filter_survivors_nondegenerate ⟨0, 0, 5, 5, "plate", 1⟩ (by decide)⟩

/-- C2, counterexample: the claim asserts that `sanitize` removes
exactly the characters that are not an ASCII letter or digit, so on
`"é"` it would have to return the absent marker.  The code's filter is
Python's Unicode-aware `isalnum`, which keeps `é`: `sanitize "é"`
returns `"é"`, while the ASCII sanitizer of the spec returns `none`. -/
theorem sanitize_ascii_counterexample :
    sanitize "é" = some "é" ∧ isAsciiAlnum 'é' = false ∧ sanitizeSpec "é" = none := by
  decide

/-- C2, amended: `sanitize` keeps, in order, exactly the characters
accepted by Python's Unicode `isalnum` and returns the absent marker
exactly when no character is kept; on strings of ASCII characters this
coincides with the spec's ASCII letter-or-digit filter, and the spec's
two examples hold. -/
theorem sanitize_isalnum_filter (text : String) :
    (sanitize text = none ↔ ∀ c ∈ text.toList, pyIsAlnum c = false) ∧
    (∀ out, sanitize text = some out →
      out.toList = text.toList.filter pyIsAlnum ∧ out ≠ "") ∧
    ((∀ c ∈ text.toList, c.toNat < 128) → sanitize text = sanitizeSpec text) ∧
    sanitize "AB-12 cd" = some "AB12cd" ∧ sanitize "----" = none := by
  refine ⟨sanitize_eq_none_iff text, fun out h => sanitize_eq_some h, ?_, by decide, by decide⟩
  intro hascii
  have hf : text.toList.filter pyIsAlnum = text.toList.filter isAsciiAlnum :=
    List.filter_congr fun c hc => by rw [pyIsAlnum_eq_ascii (hascii c hc)]
  unfold sanitize sanitizeSpec
  rw [hf]

/-- Witness for the amended C2 theorem at the spec's own example. -/
theorem sanitize_isalnum_filter_witness :
    sanitize "AB-12 cd" = sanitizeSpec "AB-12 cd" ∧ sanitize "AB-12 cd" = some "AB12cd" :=
  ⟨(sanitize_isalnum_filter "AB-12 cd").2.2.1 (by decide),
    (sanitize_isalnum_filter "AB-12 cd").2.2.2.1⟩

/-- C3, counterexample: the claim asserts that every request with
undecodable image bytes fails with a user-visible client error.  On
the Telegram webhook route, undecodable bytes produce the
`"Invalid image"` error body but HTTP status 200 — deliberately, to
stop Telegram from retrying — which is not a 4xx client error. -/
theorem webhook_decode_failure_counterexample :
    (telegram_webhook ctx0 (fun _ => none) (fun _ => PyResult.ok []) (PyResult.ok [1, 2, 3])
      true true).status = 200 ∧
    (telegram_webhook ctx0 (fun _ => none) (fun _ => PyResult.ok []) (PyResult.ok [1, 2, 3])
      true true).body = WebhookBody.invalidImage ∧
    ¬ (400 ≤ (telegram_webhook ctx0 (fun _ => none) (fun _ => PyResult.ok [])
        (PyResult.ok [1, 2, 3]) true true).status ∧
       (telegram_webhook ctx0 (fun _ => none) (fun _ => PyResult.ok [])
        (PyResult.ok [1, 2, 3]) true true).status < 500) := by
  decide

/-- C3, amended: decoding is a typed failure (`Option`-valued codec,
never an uncaught exception).  On the `/upload` route, empty bytes and
undecodable bytes each fail with HTTP 400, and a decodable image with
no surviving plate detections still succeeds with HTTP 200 and zero
detection records.  On the Telegram webhook route, undecodable bytes
answer the `"Invalid image"` error body with HTTP 200 (webhook
convention), not a 4xx client error. -/
theorem decode_failure_handling (ctx : ServerCtx) (decode : List Nat → Option (Image BGR))
    (predict : Image BGR → PyResult (List BBox)) (bytes wbytes : List Nat) (img : Image BGR)
    (boxes : List BBox) :
    ((upload_image ctx decode predict []).status = 400 ∧
      (upload_image ctx decode predict []).body = UploadBody.emptyData) ∧
    (bytes ≠ [] → decode bytes = none →
      (upload_image ctx decode predict bytes).status = 400 ∧
      (upload_image ctx decode predict bytes).body = UploadBody.decodeFailed) ∧
    (bytes ≠ [] → decode bytes = some img → predict img = PyResult.ok boxes →
      boxes.enum.filter (fun p => serverBoxSurvives p.2) = [] →
      (upload_image ctx decode predict bytes).status = 200 ∧
      (upload_image ctx decode predict bytes).records = []) ∧
    (decode wbytes = none →
      (telegram_webhook ctx decode predict (PyResult.ok wbytes) true true).status = 200 ∧
      (telegram_webhook ctx decode predict (PyResult.ok wbytes) true true).body =
        WebhookBody.invalidImage) := by
  refine ⟨⟨rfl, rfl⟩, ?_, ?_, ?_⟩
  · intro hb hdec
    unfold upload_image
    rw [isEmpty_false_of_ne_nil hb]
    simp [hdec]
  · intro hb hdec hpred hzero
    rw [upload_image_noPlate ctx decode predict bytes img boxes hb hdec hpred hzero]
    exact ⟨rfl, rfl⟩
  · intro hdec
    unfold telegram_webhook
    simp [hdec]

/-- Witness for the amended C3 theorem: concrete oracles exercising the
empty-bytes branch and the webhook decode-failure branch. -/
theorem decode_failure_handling_witness :
    ((upload_image ctx0 (fun _ => none) (fun _ => PyResult.ok []) []).status = 400 ∧
      (upload_image ctx0 (fun _ => none) (fun _ => PyResult.ok []) []).body =
        UploadBody.emptyData) ∧
    ((upload_image ctx0 (fun _ => none) (fun _ => PyResult.ok []) [7]).status = 400 ∧
      (upload_image ctx0 (fun _ => none) (fun _ => PyResult.ok []) [7]).body =
        UploadBody.decodeFailed) ∧
    ((telegram_webhook ctx0 (fun _ => none) (fun _ => PyResult.ok []) (PyResult.ok [7])
        true true).status = 200 ∧
      (telegram_webhook ctx0 (fun _ => none) (fun _ => PyResult.ok []) (PyResult.ok [7])
        true true).body = WebhookBody.invalidImage) :=
  ⟨(decode_failure_handling ctx0 (fun _ => none) (fun _ => PyResult.ok []) [7] [7]
      img10 []).1,
    (decode_failure_handling ctx0 (fun _ => none) (fun _ => PyResult.ok []) [7] [7]
      img10 []).2.1 (by decide) rfl,
    (decode_failure_handling ctx0 (fun _ => none) (fun _ => PyResult.ok []) [7] [7]
      img10 []).2.2.2 rfl⟩

/-- C4: when the OCR engine raises on one crop, the exception is
caught: that crop's record carries the `"unreadable"` placeholder, the
request still returns HTTP 200, and the record list is exactly the
per-box records of all surviving boxes (each computed independently),
so the other crops' records are intact.  The hypothesis that every
surviving box has a non-empty crop reflects the code: an empty crop
aborts the request at `cv2.imwrite`, before any OCR runs. -/
theorem ocr_failure_isolated (ctx : ServerCtx) (decode : List Nat → Option (Image BGR))
    (predict : Image BGR → PyResult (List BBox)) (bytes : List Nat) (img : Image BGR)
    (boxes : List BBox) (p : Nat × BBox) (e : String)
    (hb : bytes ≠ []) (hdec : decode bytes = some img)
    (hpred : predict img = PyResult.ok boxes)
    (hall : ∀ q ∈ boxes.enum.filter (fun q => serverBoxSurvives q.2), cropOk img q.2 = true)
    (hp : p ∈ boxes.enum) (hs : serverBoxSurvives p.2 = true)
    (herr : ctx.ocr (preprocess (cropImage img p.2.y1 p.2.y2 p.2.x1 p.2.x2)) =
      PyResult.exn e) :
    (upload_image ctx decode predict bytes).status = 200 ∧
    (serverRec ctx img p).text = "unreadable" ∧
    serverRec ctx img p ∈ (upload_image ctx decode predict bytes).records ∧
    (upload_image ctx decode predict bytes).records =
      (boxes.enum.filter fun q => serverBoxSurvives q.2).map (serverRec ctx img) := by
  have hmemf : p ∈ boxes.enum.filter fun q => serverBoxSurvives q.2 :=
    List.mem_filter.mpr ⟨hp, hs⟩
  have hne : boxes.enum.filter (fun q => serverBoxSurvives q.2) ≠ [] :=
    List.ne_nil_of_mem hmemf
  obtain ⟨hstatus, hrecords, _⟩ :=
    upload_image_okPlates ctx decode predict bytes img boxes hb hdec hpred hall hne
  have htext : (serverRec ctx img p).text = "unreadable" := by
    simp only [serverRec, run_ocr_on_crop]
    rw [herr]
    rfl
  refine ⟨hstatus, htext, ?_, hrecords⟩
  rw [hrecords]
  exact List.mem_map_of_mem (serverRec ctx img) hmemf

/-- Witness for C4: `ctxW`'s engine raises exactly on `bW1`'s crop;
the run yields the placeholder for `bW1`, HTTP 200, and the map
characterisation of the records. -/
theorem ocr_failure_isolated_witness :
    (upload_image ctxW (fun _ => some img4) (fun _ => PyResult.ok [bW1, bW2]) [1]).status =
      200 ∧
    (serverRec ctxW img4 (0, bW1)).text = "unreadable" ∧
    serverRec ctxW img4 (0, bW1) ∈
      (upload_image ctxW (fun _ => some img4) (fun _ => PyResult.ok [bW1, bW2]) [1]).records ∧
    (upload_image ctxW (fun _ => some img4) (fun _ => PyResult.ok [bW1, bW2]) [1]).records =
      ([bW1, bW2].enum.filter fun q => serverBoxSurvives q.2).map (serverRec ctxW img4) :=
  ocr_failure_isolated ctxW (fun _ => some img4) (fun _ => PyResult.ok [bW1, bW2]) [1] img4
    [bW1, bW2] (0, bW1) "boom" (by decide) rfl rfl (by decide) (by decide) (by decide)
    (by decide)

/-- C5, counterexample: the claim asserts that a throwing detection
model is never fatal to the request.  In `upload_image` the
`model.predict` call is not individually guarded: its exception reaches
the route's outer handler and the request aborts with HTTP 500. -/
theorem detection_failure_fatal_counterexample :
    (upload_image ctx0 (fun _ => some img10) (fun _ => PyResult.exn "model crashed")
      [1]).status = 500 ∧
    (upload_image ctx0 (fun _ => some img10) (fun _ => PyResult.exn "model crashed")
      [1]).body = UploadBody.serverError "model crashed" := by
  decide

/-- C5, amended: in `detect_and_ocr.detect_plates` a throwing model
invocation degrades to zero detections (an empty record list, the
failure being logged), but in the `upload_image` route a throwing
`model.predict` aborts the request with HTTP 500, no records and no
inserted rows. -/
theorem detection_failure_handling (e : String) (ocr : Image Nat → PyResult String)
    (img img2 : Image BGR) (saveDir pfx : String) (ctx : ServerCtx)
    (decode : List Nat → Option (Image BGR)) (predict : Image BGR → PyResult (List BBox))
    (bytes : List Nat) :
    detect_plates (PyResult.exn e) ocr img saveDir pfx = [] ∧
    (bytes ≠ [] → decode bytes = some img2 → predict img2 = PyResult.exn e →
      (upload_image ctx decode predict bytes).status = 500 ∧
      (upload_image ctx decode predict bytes).records = [] ∧
      (upload_image ctx decode predict bytes).inserted = []) := by
  refine ⟨rfl, ?_⟩
  intro hb hdec hpred
  rw [upload_image_exn ctx decode predict bytes img2 e hb hdec hpred]
  exact ⟨rfl, rfl, rfl⟩

/-- Witness for the amended C5 theorem at concrete oracles. -/
theorem detection_failure_handling_witness :
    detect_plates (PyResult.exn "model crashed") ctx0.ocr img10 "output" "detected" = [] ∧
    ((upload_image ctx0 (fun _ => some img10) (fun _ => PyResult.exn "model crashed")
        [1]).status = 500 ∧
      (upload_image ctx0 (fun _ => some img10) (fun _ => PyResult.exn "model crashed")
        [1]).records = [] ∧
      (upload_image ctx0 (fun _ => some img10) (fun _ => PyResult.exn "model crashed")
        [1]).inserted = []) :=
  ⟨(detection_failure_handling "model crashed" ctx0.ocr img10 img10 "output" "detected" ctx0
      (fun _ => some img10) (fun _ => PyResult.exn "model crashed") [1]).1,
    (detection_failure_handling "model crashed" ctx0.ocr img10 img10 "output" "detected" ctx0
      (fun _ => some img10) (fun _ => PyResult.exn "model crashed") [1]).2
      (by decide) rfl rfl⟩

/-- C6: the OCR preprocessing is exactly the three-step chain
grayscale, then global Otsu binarisation, then a 3×3 median filter, in
that order, and after it every pixel of the preprocessed image is 0 or
255.  The chain is a pure function of the crop — deterministic, with no
learned parameters. -/
theorem ocr_preprocess_chain (crop : Image BGR) :
    preprocess crop =
      medianBlur3 (thresholdBinary (cvtGray crop) (otsuThreshold (cvtGray crop))) ∧
    ∀ x y, (preprocess crop).pix x y = 0 ∨ (preprocess crop).pix x y = 255 :=
  ⟨rfl, fun x y => preprocess_pix crop x y⟩

/-- C7, counterexample: the claim asserts that the filter-and-crop
stage produces a crop exactly for the boxes labelled `"plate"`
(case-insensitively).  In the `server.py` route, a plate-labelled box
with `x2 = x1` is skipped by the degenerate-box check and produces no
record: the request completes with zero records. -/
theorem plate_filter_exactly_counterexample :
    (lowerString (⟨3, 3, 3, 8, "plate", 1⟩ : BBox).cls == "plate") = true ∧
    (upload_image ctx0 (fun _ => some img10)
      (fun _ => PyResult.ok [⟨3, 3, 3, 8, "plate", 1⟩]) [1]).records = [] := by
  decide

/-- C7, amended: provided every processed crop is non-empty (as is the
case for boxes lying within the image), the `server.py` loop produces
one record for exactly the boxes that are labelled `"plate"`
(case-insensitively) and satisfy `x2 > x1` and `y2 > y1`, while
`detect_plates` produces one record for exactly the plate-labelled
boxes; both preserve the input order and perform no deduplication or
merging (a `filter` followed by an element-wise `map`), so overlapping
or duplicate plate boxes each produce an independent crop record.
When some processed crop is empty, `cv2.imwrite` raises instead and no
records are delivered at all. -/
theorem plate_filter_characterization (ctx : ServerCtx) (img : Image BGR)
    (l : List (Nat × BBox)) (ann : Image BGR) (ocr : Image Nat → PyResult String)
    (saveDir pfx : String) (boxes : List BBox)
    (hserver : ∀ p ∈ l.filter (fun p => serverBoxSurvives p.2), cropOk img p.2 = true)
    (hdet : ∀ p ∈ boxes.enum.filter (fun p => lowerString p.2.cls == "plate"),
      cropOk img p.2 = true) :
    serverLoop ctx img l ann =
      PyResult.ok ((l.filter fun p => serverBoxSurvives p.2).map (serverRec ctx img),
        (l.filter fun p => serverBoxSurvives p.2).foldl (fun a p => ctx.draw a p.2) ann) ∧
    detect_plates (PyResult.ok boxes) ocr img saveDir pfx =
      (boxes.enum.filter fun p => lowerString p.2.cls == "plate").map
        (detRec ocr img saveDir pfx) := by
  constructor
  · exact serverLoop_ok ctx img l ann hserver
  · simp only [detect_plates]
    rw [detectLoop_ok ocr img saveDir pfx boxes.enum hdet]

/-- A plate-labelled in-bounds test box on the ten-by-ten image. -/
def bP : BBox := ⟨0, 0, 5, 5, "plate", 1⟩

/-- A car-labelled test box with the same coordinates. -/
def bC : BBox := ⟨0, 0, 5, 5, "car", 1⟩

/-- Witness for the amended C7 theorem at a concrete plate-and-car box
list whose crops are non-empty. -/
theorem plate_filter_characterization_witness :
    serverLoop ctx0 img10 [(0, bP), (1, bC)] img10 =
      PyResult.ok (([(0, bP), (1, bC)].filter fun p => serverBoxSurvives p.2).map
          (serverRec ctx0 img10),
        ([(0, bP), (1, bC)].filter fun p => serverBoxSurvives p.2).foldl
          (fun a p => ctx0.draw a p.2) img10) ∧
    detect_plates (PyResult.ok [bP, bC]) ctx0.ocr img10 "output" "detected" =
      ([bP, bC].enum.filter fun p => lowerString p.2.cls == "plate").map
        (detRec ctx0.ocr img10 "output" "detected") :=
  plate_filter_characterization ctx0 img10 [(0, bP), (1, bC)] img10 ctx0.ocr "output"
    "detected" [bP, bC] (by decide) (by decide)

/-- C8: when the detector returns zero boxes, the request succeeds
with an empty record list and the annotated image it produces is the
original image itself — no rectangle or label is drawn. -/
theorem zero_boxes_identity (ctx : ServerCtx) (decode : List Nat → Option (Image BGR))
    (predict : Image BGR → PyResult (List BBox)) (bytes : List Nat) (img : Image BGR)
    (hb : bytes ≠ []) (hdec : decode bytes = some img)
    (hpred : predict img = PyResult.ok []) :
    (upload_image ctx decode predict bytes).records = [] ∧
    (upload_image ctx decode predict bytes).annotated = some img ∧
    (upload_image ctx decode predict bytes).status = 200 := by
  rw [upload_image_noPlate ctx decode predict bytes img [] hb hdec hpred rfl]
  exact ⟨rfl, rfl, rfl⟩

/-- Witness for C8 at a concrete image and a detector returning no
boxes. -/
theorem zero_boxes_identity_witness :
    (upload_image ctx0 (fun _ => some img10) (fun _ => PyResult.ok []) [1]).records = [] ∧
    (upload_image ctx0 (fun _ => some img10) (fun _ => PyResult.ok []) [1]).annotated =
      some img10 ∧
    (upload_image ctx0 (fun _ => some img10) (fun _ => PyResult.ok []) [1]).status = 200 :=
  zero_boxes_identity ctx0 (fun _ => some img10) (fun _ => PyResult.ok []) [1] img10
    (by decide) rfl rfl

/-- C9: a decodable image with zero surviving plate detections still
causes exactly one row to be handed to `insert_plate_record`, with
plate text `"no_plate_detected"`, confidence 0, an absent plate-image
URL, and HTTP 200 returned to the caller. -/
theorem no_plate_row_inserted (ctx : ServerCtx) (decode : List Nat → Option (Image BGR))
    (predict : Image BGR → PyResult (List BBox)) (bytes : List Nat) (img : Image BGR)
    (boxes : List BBox) (hb : bytes ≠ []) (hdec : decode bytes = some img)
    (hpred : predict img = PyResult.ok boxes)
    (hzero : boxes.enum.filter (fun p => serverBoxSurvives p.2) = []) :
    (upload_image ctx decode predict bytes).status = 200 ∧
    (upload_image ctx decode predict bytes).inserted =
      [⟨ctx.camera_id, "no_plate_detected", 0, none, sceneUrl ctx, "new"⟩] := by
  rw [upload_image_noPlate ctx decode predict bytes img boxes hb hdec hpred hzero]
  exact ⟨rfl, rfl⟩

/-- Witness for C9: a car-labelled detection survives nothing, and the
single `"no_plate_detected"` row is inserted with HTTP 200. -/
theorem no_plate_row_inserted_witness :
    (upload_image ctx0 (fun _ => some img10)
      (fun _ => PyResult.ok [⟨0, 0, 5, 5, "car", 1⟩]) [1]).status = 200 ∧
    (upload_image ctx0 (fun _ => some img10)
      (fun _ => PyResult.ok [⟨0, 0, 5, 5, "car", 1⟩]) [1]).inserted =
      [⟨ctx0.camera_id, "no_plate_detected", 0, none, sceneUrl ctx0, "new"⟩] :=
  no_plate_row_inserted ctx0 (fun _ => some img10)
    (fun _ => PyResult.ok [⟨0, 0, 5, 5, "car", 1⟩]) [1] img10 [⟨0, 0, 5, 5, "car", 1⟩]
    (by decide) rfl rfl (by decide)

/-- C10: every record delivered by the per-box loop has a non-empty
text field, which is either the literal `"unreadable"` or a non-empty
string all of whose characters pass the sanitizer's alphanumeric test;
it is never the empty string (and, structurally, never absent: the
field is a plain string).  When the loop raises, no records are
delivered at all. -/
theorem record_text_wellformed (ctx : ServerCtx) (img : Image BGR) (l : List (Nat × BBox))
    (ann : Image BGR) :
    ∀ rec ∈ loopRecords (serverLoop ctx img l ann),
      rec.text ≠ "" ∧
      (rec.text = "unreadable" ∨ ∀ c ∈ rec.text.toList, pyIsAlnum c = true) := by
  intro rec hrec
  obtain ⟨p, hpmem, heq⟩ := mem_loopRecords ctx img l ann rec hrec
  have ht : rec.text =
      (run_ocr_on_crop ctx.ocr (cropImage img p.2.y1 p.2.y2 p.2.x1 p.2.x2)).getD
        "unreadable" := by
    rw [heq]
    simp only [serverRec]
  cases hro : run_ocr_on_crop ctx.ocr (cropImage img p.2.y1 p.2.y2 p.2.x1 p.2.x2) with
  | none =>
    rw [ht, hro]
    exact ⟨by decide, Or.inl rfl⟩
  | some s =>
    rw [ht, hro, Option.getD_some]
    obtain ⟨hlist, hne⟩ := run_ocr_some hro
    obtain ⟨raw, hraw⟩ := hlist
    refine ⟨hne, Or.inr ?_⟩
    intro c hc
    rw [hraw] at hc
    exact List.of_mem_filter hc

/-- Witness for C10 at a concrete run whose OCR engine reads
`"AB 12"`. -/
theorem record_text_wellformed_witness :
    (serverRec ctxW img4 (0, bW2)).text ≠ "" ∧
    ((serverRec ctxW img4 (0, bW2)).text = "unreadable" ∨
      ∀ c ∈ (serverRec ctxW img4 (0, bW2)).text.toList, pyIsAlnum c = true) :=
  record_text_wellformed ctxW img4 [(0, bW2)] img4 (serverRec ctxW img4 (0, bW2))
    (by decide)

end SmartParking
